import Mathlib

/-
Verification of the re_cync event-stream protocol client.

Shallow embedding of `custom_components/re_cync/event.py` and
`custom_components/re_cync/coordinator.py`:
  * byte strings become `List Nat` (each entry one byte),
  * `struct.unpack(">I", _)` / `">H"` become the big-endian fold `beVal`,
  * `int.to_bytes(k, "big")` becomes `beBytes k`,
  * Python `str(n)` on a non-negative integer becomes `pyStrNat`,
  * Python `int(s)` on a string becomes `pyInt` (decimal digits or failure),
  * raising code returns `Except String _` (the string names the Python error),
  * the read loop of `EventStream.__event_reader` is driven by an oracle list
    of connection attempts (`Attempt`), producing a trace of emitted events
    and backoff sleeps (`TraceItem`).
-/

namespace ReCync

/-- Event types emitted on the bus, from `class EventType(Enum)`. -/
inductive EventType where
  | CONNECTED
  | RECONNECTED
  | DISCONNECTED
  | RESOURCE_ADDED
  | RESOURCE_UPDATED
deriving DecidableEq

/-- Connection status, from `class EventStreamStatus(Enum)`. -/
inductive EventStreamStatus where
  | CONNECTING
  | CONNECTED
  | DISCONNECTED
deriving DecidableEq

/-- Resource types, from `class ResourceTypes(Enum)` (single member). -/
inductive ResourceTypes where
  | UNKNOWN
deriving DecidableEq

/-- The module constant `TARGET_DEVICE_ID` of `event.py` (also duplicated in
`coordinator.py`). -/
def TARGET_DEVICE_ID : String := "c2555427-0146-479b-9c78-a210d953b0ae"

/-- Big-endian value of a byte list: `struct.unpack(">I", b)` on a 4-byte
slice and `struct.unpack(">H", b)` on a 2-byte slice both compute this fold. -/
def beVal (l : List Nat) : Nat :=
  l.foldl (fun a b => a * 256 + b) 0

/-- `n.to_bytes(k, "big")`: the `k` big-endian bytes of `n` (the caller models
Python's `OverflowError` by checking `n < 256 ^ k` before using this). -/
def beBytes : Nat → Nat → List Nat
  | 0, _ => []
  | k + 1, n => n / 256 ^ k % 256 :: beBytes k n

/-- Decimal digits of `m`, most significant first, with structural fuel so the
definition reduces by `rfl`/`decide`.  With `m < fuel` this is the usual
base-10 digit list. -/
def decDigitsGo : Nat → Nat → List Nat
  | 0, _ => []
  | fuel + 1, m => if m < 10 then [m] else decDigitsGo fuel (m / 10) ++ [m % 10]

/-- Python `str(n)` for a non-negative integer `n`: its decimal digit string. -/
def pyStrNat (n : Nat) : String :=
  String.mk ((decDigitsGo (n + 1) n).map (fun d => Char.ofNat (48 + d)))

/-- Python `int(s)` restricted to the strings this program feeds it: a
non-empty all-digit string parses to its decimal value, anything else raises
`ValueError` (modelled as `none`).  (Python's `int` also accepts signs and
surrounding whitespace; no string in this program uses those forms.) -/
def pyInt (s : String) : Option Nat :=
  if s.data ≠ [] ∧ s.data.all Char.isDigit then
    some (s.data.foldl (fun a ch => a * 10 + (ch.toNat - 48)) 0)
  else none

/-- The status record handed to the update callback by
`EventStream.__handle_status_update`. -/
structure StatusRecord where
  is_on : Bool
  brightness : Nat
  white_temp : Nat
  rgb : Nat × Nat × Nat
deriving DecidableEq

/-- `EventStream.__handle_status_update`, with the module constant
`TARGET_DEVICE_ID` abstracted as `target`.  Returns `ok none` when the update
is discarded before the callback, `ok (some (switchId, status))` when the
registered callback is invoked with those arguments, and `error` when a
`struct.unpack` on a short slice raises. -/
def handleStatusUpdate (target : String) (packet : List Nat) :
    Except String (Option (String × StatusRecord)) :=
  if packet.length < 4 then Except.error "struct.error"
  else
    let switchId := pyStrNat (beVal (packet.take 4))
    if switchId ≠ target then Except.ok none
    else if packet.length < 17 then Except.error "struct.error"
    else
      let s := (packet.drop 11).take 6
      Except.ok (some (switchId,
        { is_on := s.getD 0 0 != 0
          brightness := s.getD 1 0
          white_temp := s.getD 2 0
          rgb := (s.getD 3 0, s.getD 4 0, s.getD 5 0) }))

/-- Outcome of one `EventStream.async_command` call: an early return with
nothing written, a message written to the transport, or a raised exception. -/
inductive CmdOutcome where
  | dropped
  | written (msg : List Nat)
  | error (e : String)
deriving DecidableEq

/-- The 15 fixed bytes `bytes.fromhex("007e00000000f8d00d000000000000")`
appended after the sequence number in `EventStream.async_command`. -/
def fixedTail : List Nat :=
  [0x00, 0x7e, 0x00, 0x00, 0x00, 0x00, 0xf8, 0xd0, 0x0d, 0x00, 0x00, 0x00, 0x00, 0x00, 0x00]

/-- `EventStream.async_command`, with the module constant `TARGET_DEVICE_ID`
abstracted as `target`.  The session state it touches is the status (read via
`self.connected`) and the sequence counter `self._seq`; the result pairs the
new sequence value with the outcome.  `int(switch_id)` raising `ValueError`
and `to_bytes` raising `OverflowError` are modelled explicitly, after the
increment of `self._seq`, exactly as the statements are ordered in the
source. -/
def asyncCommand (target : String) (status : EventStreamStatus) (seq : Nat)
    (c : List Nat) (switchId : String) (packet : List Nat) : Nat × CmdOutcome :=
  if status ≠ EventStreamStatus.CONNECTED then (seq, CmdOutcome.dropped)
  else if switchId ≠ target then (seq, CmdOutcome.dropped)
  else
    let seq' := seq + 1
    match pyInt switchId with
    | none => (seq', CmdOutcome.error "ValueError")
    | some n =>
      if 256 ^ 4 ≤ n then (seq', CmdOutcome.error "OverflowError")
      else if 256 ^ 2 ≤ seq' then (seq', CmdOutcome.error "OverflowError")
      else (seq', CmdOutcome.written (c ++ beBytes 4 n ++ beBytes 2 seq' ++ fixedTail ++ packet))

/-- The fixed mesh id `bytes.fromhex("0000")` of `ReCyncCoordinator.turn_on`
and `turn_off` (a placeholder in the source). -/
def meshId : List Nat := [0x00, 0x00]

/-- The inner packet built by `ReCyncCoordinator.turn_on`, with the mesh id as
a parameter (`mesh.getD i 0` models the byte indexing `mesh_id[i]`). -/
def turnOnPacket (mesh : List Nat) : List Nat :=
  mesh ++ [0xd0, 0x00, 0x00, 0x01, 0x00, 0x00]
    ++ [(430 + mesh.getD 0 0 + mesh.getD 1 0) % 256] ++ [0x7e]

/-- The inner packet built by `ReCyncCoordinator.turn_off`. -/
def turnOffPacket (mesh : List Nat) : List Nat :=
  mesh ++ [0xd0, 0x00, 0x00, 0x00, 0x00, 0x00]
    ++ [(429 + mesh.getD 0 0 + mesh.getD 1 0) % 256] ++ [0x7e]

/-- The 5-byte command code `bytes.fromhex("730000001f")` passed by both
`turn_on` and `turn_off`. -/
def onOffCode : List Nat := [0x73, 0x00, 0x00, 0x00, 0x1f]

/-- Result of one iteration of the loop body of `EventStream.__process`:
either the EOF branch was taken (`DISCONNECTED` emitted, loop exits) or one
frame was read, leaving the rest of the stream. -/
inductive StepResult where
  | eofBreak
  | packet (packetType : Nat) (packet : List Nat) (rest : List Nat)
deriving DecidableEq

/-- One iteration of `EventStream.__process` over a stream modelled as the
full list of bytes the transport delivers before EOF: `read(5)` takes up to 5
bytes, `at_eof()` holds when nothing remains, the header declares
`packet_length` and `assert len(packet) == packet_length` raises
`AssertionError` on a short read. -/
def processStep (stream : List Nat) : Except String StepResult :=
  let header := stream.take 5
  let rest := stream.drop 5
  if rest.isEmpty then Except.ok StepResult.eofBreak
  else
    let packetType := header.getD 0 0
    let packetLength := beVal (header.drop 1)
    let packet := rest.take packetLength
    if packet.length = packetLength then
      Except.ok (StepResult.packet packetType packet (rest.drop packetLength))
    else Except.error "AssertionError"

/-- Whether the dispatch arm of `EventStream.__process` raises for a packet of
type `packetType`, following each handler: `__handle_status_update` (0x43,
see `handleStatusUpdate`), `__handle_ack` (0x7b, unpacks bytes `[0:4]` and
`[4:6]`), `__handle_command` (0x83, unpacks bytes `[0:4]`), `__handle_error`
(0xe0, asserts a 1-byte payload); types 0x18, 0xab, 0xd8 and the default arm
only log. -/
def handlePacket (target : String) (packetType : Nat) (p : List Nat) : Except String Unit :=
  match packetType with
  | 0x18 => Except.ok ()
  | 0x43 => (handleStatusUpdate target p).map (fun _ => ())
  | 0x7b => if p.length < 6 then Except.error "struct.error" else Except.ok ()
  | 0x83 => if p.length < 4 then Except.error "struct.error" else Except.ok ()
  | 0xab => Except.ok ()
  | 0xe0 => if p.length = 1 then Except.ok () else Except.error "AssertionError"
  | 0xd8 => Except.ok ()
  | _ => Except.ok ()

theorem processStep_packet_length_lt {stream : List Nat} {ty : Nat}
    {payload rest : List Nat}
    (h : processStep stream = Except.ok (StepResult.packet ty payload rest)) :
    rest.length < stream.length := by
  unfold processStep at h
  simp only [] at h
  split at h
  · simp at h
  next he =>
    have h6 : 5 < stream.length := by
      by_contra hle
      exact he (by rw [List.drop_eq_nil_of_le (by omega)]; rfl)
    split at h
    · simp only [Except.ok.injEq, StepResult.packet.injEq] at h
      obtain ⟨-, -, hr⟩ := h
      rw [← hr]
      simp only [List.length_drop]
      omega
    · simp at h

/-- `EventStream.__process`: run the framing loop over the whole stream.
`ok ()` means the loop exited through the EOF branch (after emitting one
`DISCONNECTED` on the bus); `error` means a raise propagated out of the
loop. -/
def processRun (target : String) (stream : List Nat) : Except String Unit :=
  match h : processStep stream with
  | Except.error e => Except.error e
  | Except.ok StepResult.eofBreak => Except.ok ()
  | Except.ok (StepResult.packet ty payload rest) =>
    match handlePacket target ty payload with
    | Except.error e => Except.error e
    | Except.ok _ => processRun target rest
termination_by stream.length
decreasing_by exact processStep_packet_length_lt h

/-- One connection attempt as the read loop sees it: either `__connect` or
the login write raises (`fail`), or the connection is established and
`__process` runs over the bytes the stream delivers before EOF (`succeed`). -/
inductive Attempt where
  | fail
  | succeed (stream : List Nat)
deriving DecidableEq

/-- Observable step of `EventStream.__event_reader`: an event emitted on the
bus, or the fixed 2-second backoff sleep of the `except` branch. -/
inductive TraceItem where
  | ev (e : EventType)
  | sleepBackoff
deriving DecidableEq

/-- Trace of the `n`-th iteration of the `while True` loop of
`EventStream.__event_reader` (`n` is the value of `connect_attempts` for this
iteration).  On success the connect event is chosen by `connect_attempts == 1`;
a clean EOF return from `__process` has already emitted one `DISCONNECTED`
inside the loop; a raise goes through the `except` branch and its 2-second
sleep; every iteration ends with the `emit(EventType.DISCONNECTED)` that
follows the `try`/`except` block. -/
def attemptTrace (target : String) (n : Nat) (a : Attempt) : List TraceItem :=
  match a with
  | Attempt.fail => [TraceItem.sleepBackoff, TraceItem.ev EventType.DISCONNECTED]
  | Attempt.succeed s =>
    (if n = 1 then [TraceItem.ev EventType.CONNECTED]
     else [TraceItem.ev EventType.RECONNECTED]) ++
    (match processRun target s with
     | Except.ok _ => [TraceItem.ev EventType.DISCONNECTED]
     | Except.error _ => [TraceItem.sleepBackoff]) ++
    [TraceItem.ev EventType.DISCONNECTED]

/-- `EventStream.__event_reader` driven by an oracle list of connection
attempts, starting at attempt number `n` (the loop itself starts at 1). -/
def eventReader (target : String) (n : Nat) : List Attempt → List TraceItem
  | [] => []
  | a :: rest => attemptTrace target n a ++ eventReader target (n + 1) rest

/-- A registered subscription `(callback, event_filter, resource_filter)`;
callbacks are identified opaquely by a number, and the event data is opaque
as well (only its presence matters to the bus). -/
structure Subscription where
  callback : Nat
  eventFilter : Option (List EventType)
  resourceFilter : Option (List ResourceTypes)
deriving DecidableEq

/-- The per-subscription delivery condition of `EventStream.emit`: the two
`continue` guards of the loop, in source order. -/
def receivesEvent (sub : Subscription) (etype : EventType) (data : Option Nat) : Bool :=
  if sub.eventFilter.isSome ∧ etype ∉ sub.eventFilter.getD [] then false
  else if data.isSome ∧ sub.resourceFilter.isSome then false
  else true

/-- `EventStream.emit`: iterate the subscriptions, skipping by the two guards,
and invoke the rest; the result lists the callbacks invoked, in order. -/
def emit (subs : List Subscription) (etype : EventType) (data : Option Nat) : List Nat :=
  match subs with
  | [] => []
  | sub :: rest =>
    if sub.eventFilter.isSome ∧ etype ∉ sub.eventFilter.getD [] then emit rest etype data
    else if data.isSome ∧ sub.resourceFilter.isSome then emit rest etype data
    else sub.callback :: emit rest etype data

theorem decDigitsGo_length_le :
    ∀ (k fuel m : Nat), m < 10 ^ k → (decDigitsGo fuel m).length ≤ k + 1 := by
  intro k
  induction k with
  | zero =>
    intro fuel m hm
    have hm0 : m = 0 := by simpa using hm
    subst hm0
    cases fuel with
    | zero => simp [decDigitsGo]
    | succ f => simp [decDigitsGo]
  | succ k ih =>
    intro fuel m hm
    cases fuel with
    | zero => simp [decDigitsGo]
    | succ f =>
      by_cases h10 : m < 10
      · simp [decDigitsGo, h10]
      · have hdiv : m / 10 < 10 ^ k := by
          rw [Nat.div_lt_iff_lt_mul (by norm_num)]
          calc m < 10 ^ (k + 1) := hm
            _ = 10 ^ k * 10 := by ring
        have hlen := ih f (m / 10) hdiv
        simp only [decDigitsGo, h10, if_false, List.length_append, List.length_cons,
          List.length_nil]
        omega

theorem pyStrNat_length_le {n : Nat} (h : n < 2 ^ 32) :
    (pyStrNat n).data.length ≤ 11 := by
  have h10 : n < 10 ^ 10 := by
    have : (2 : Nat) ^ 32 < 10 ^ 10 := by norm_num
    omega
  have := decDigitsGo_length_le 10 (n + 1) n h10
  simpa [pyStrNat] using this

theorem pyStrNat_ne_target {n : Nat} (h : n < 2 ^ 32) :
    pyStrNat n ≠ TARGET_DEVICE_ID := by
  intro heq
  have h11 := pyStrNat_length_le h
  rw [heq] at h11
  have h36 : TARGET_DEVICE_ID.data.length = 36 := by rfl
  omega

/-- C3: for every type-0x43 payload of at least 4 bytes, the status-update
handler discards the update before the callback: the extracted device id is
the decimal string of a 32-bit big-endian value and can never equal the
UUID-format `TARGET_DEVICE_ID`, so the handler returns without invoking the
registered status callback. -/
theorem statusUpdate_never_calls_back (packet : List Nat)
    (hb : ∀ b ∈ packet, b < 256) (hl : 4 ≤ packet.length) :
    handleStatusUpdate TARGET_DEVICE_ID packet = Except.ok none := by
  have h4 : ∃ a b c d rest, packet = a :: b :: c :: d :: rest := by
    rcases packet with _ | ⟨a, _ | ⟨b, _ | ⟨c, _ | ⟨d, rest⟩⟩⟩⟩
    · simp at hl
    · simp at hl
    · simp at hl
    · simp at hl
    · exact ⟨_, _, _, _, _, rfl⟩
  obtain ⟨a, b, c, d, rest, rfl⟩ := h4
  have ha : a < 256 := hb a (by simp)
  have hbb : b < 256 := hb b (by simp)
  have hcc : c < 256 := hb c (by simp)
  have hdd : d < 256 := hb d (by simp)
  have hv : beVal [a, b, c, d] < 2 ^ 32 := by
    simp only [beVal, List.foldl]
    omega
  have hne := pyStrNat_ne_target hv
  simp [handleStatusUpdate, hne]

/-- C3 witness: a concrete 4-byte payload is discarded. -/
theorem statusUpdate_never_calls_back_witness :
    handleStatusUpdate TARGET_DEVICE_ID [0, 0, 0, 0] = Except.ok none :=
  statusUpdate_never_calls_back [0, 0, 0, 0] (by decide) (by decide)

/-- C9: for a type-0x43 payload whose first 4 bytes big-endian-decode and
stringify to the recognized device id and whose bytes `[11:17]` are
`(1, 0x64, 0x32, 0xFF, 0x00, 0x80)`, the handler invokes the callback with
exactly `{is_on := true, brightness := 0x64, white_temp := 0x32,
rgb := (0xFF, 0x00, 0x80)}`; bytes `[17:]` do not affect the result. -/
theorem statusUpdate_decode (target : String) (packet : List Nat)
    (hl : 17 ≤ packet.length)
    (hid : pyStrNat (beVal (packet.take 4)) = target)
    (hs : (packet.drop 11).take 6 = [1, 0x64, 0x32, 0xFF, 0x00, 0x80]) :
    handleStatusUpdate target packet =
      Except.ok (some (target,
        { is_on := true, brightness := 0x64, white_temp := 0x32,
          rgb := (0xFF, 0x00, 0x80) })) := by
  have h4 : ¬ packet.length < 4 := by omega
  have h17 : ¬ packet.length < 17 := by omega
  simp [handleStatusUpdate, h4, h17, hid, hs]

/-- C9 witness: a concrete 17-byte payload for device id 16909060 decodes to
the expected status record. -/
theorem statusUpdate_decode_witness :
    handleStatusUpdate "16909060"
        [1, 2, 3, 4, 0, 0, 0, 0, 0, 0, 0, 1, 0x64, 0x32, 0xFF, 0x00, 0x80] =
      Except.ok (some ("16909060",
        { is_on := true, brightness := 0x64, white_temp := 0x32,
          rgb := (0xFF, 0x00, 0x80) })) :=
  statusUpdate_decode "16909060" _ (by decide) (by decide) (by decide)

/-- C4 (code bug): for the only switch id that passes the target filter —
`TARGET_DEVICE_ID` itself — `int(switch_id)` raises `ValueError` (the UUID
string is not a decimal integer), after the sequence counter has already been
incremented.  No outbound command frame is ever produced, so the encode /
re-parse round trip claimed by the spec is unrealizable in this code. -/
theorem asyncCommand_target_raises (seq : Nat) (c packet : List Nat) :
    asyncCommand TARGET_DEVICE_ID EventStreamStatus.CONNECTED seq c
        TARGET_DEVICE_ID packet =
      (seq + 1, CmdOutcome.error "ValueError") := by
  have hp : pyInt TARGET_DEVICE_ID = none := by decide
  simp [asyncCommand, hp]

/-- C5: the checksum byte (offset 8) of the turn-on inner packet is
`(430 + meshId[0] + meshId[1]) mod 256`, and of the turn-off inner packet
`(429 + meshId[0] + meshId[1]) mod 256`; for the fixed mesh id `{0x00, 0x00}`
these are `0xAE` and `0xAD`. -/
theorem turnOnOff_checksum (m0 m1 : Nat) :
    (turnOnPacket meshId).getD 8 0 = 0xAE ∧
    (turnOffPacket meshId).getD 8 0 = 0xAD ∧
    (turnOnPacket [m0, m1]).getD 8 0 = (430 + m0 + m1) % 256 ∧
    (turnOffPacket [m0, m1]).getD 8 0 = (429 + m0 + m1) % 256 := by
  refine ⟨by rfl, by rfl, ?_, ?_⟩ <;> simp [turnOnPacket, turnOffPacket]

/-- C6: one `async_command` call leaves the sequence counter unchanged when
the command is dropped, and increments it by exactly one otherwise (for both
turn-on and turn-off, which share this path); whenever a frame is written,
its two sequence bytes (offsets 9–10, after the 5-byte command code and the
4-byte device id) big-endian-decode to the incremented counter value.  The
counter never decreases, so it is never reset by a command. -/
theorem asyncCommand_sequence (target : String) (status : EventStreamStatus)
    (seq : Nat) (c : List Nat) (sid : String) (pkt : List Nat)
    (hc : c.length = 5) :
    ((asyncCommand target status seq c sid pkt).2 = CmdOutcome.dropped →
        (asyncCommand target status seq c sid pkt).1 = seq) ∧
    ((asyncCommand target status seq c sid pkt).2 ≠ CmdOutcome.dropped →
        (asyncCommand target status seq c sid pkt).1 = seq + 1) ∧
    (∀ msg, (asyncCommand target status seq c sid pkt).2 = CmdOutcome.written msg →
        beVal ((msg.drop 9).take 2) = seq + 1) ∧
    ((asyncCommand target status seq c sid pkt).1 = seq ∨
        (asyncCommand target status seq c sid pkt).1 = seq + 1) := by
  have h5 : ∃ c0 c1 c2 c3 c4, c = [c0, c1, c2, c3, c4] := by
    rcases c with _ | ⟨c0, _ | ⟨c1, _ | ⟨c2, _ | ⟨c3, _ | ⟨c4, rest⟩⟩⟩⟩⟩
    · simp at hc
    · simp at hc
    · simp at hc
    · simp at hc
    · simp at hc
    · rcases rest with _ | ⟨x, rest⟩
      · exact ⟨_, _, _, _, _, rfl⟩
      · simp at hc
  obtain ⟨c0, c1, c2, c3, c4, rfl⟩ := h5
  by_cases h1 : status = EventStreamStatus.CONNECTED
  · subst h1
    by_cases h2 : sid = target
    · subst h2
      cases hp : pyInt sid with
      | none => simp [asyncCommand, hp]
      | some n =>
        by_cases h3 : 4294967296 ≤ n
        · simp [asyncCommand, hp, h3]
        · by_cases h4 : 65535 ≤ seq
          · simp [asyncCommand, hp, h3, h4]
          · have heval : asyncCommand sid EventStreamStatus.CONNECTED seq
                  [c0, c1, c2, c3, c4] sid pkt
                = (seq + 1, CmdOutcome.written
                    ([c0, c1, c2, c3, c4] ++ beBytes 4 n ++ beBytes 2 (seq + 1)
                      ++ fixedTail ++ pkt)) := by
              simp [asyncCommand, hp, h3, h4]
            rw [heval]
            refine ⟨by simp, by simp, ?_, by simp⟩
            intro msg hmsg
            simp only [CmdOutcome.written.injEq] at hmsg
            subst hmsg
            have hseq : seq + 1 < 65536 := by omega
            simp [beBytes, fixedTail, beVal]
            omega
    · simp [asyncCommand, h2]
  · simp [asyncCommand, h1]

/-- C6 witness: a concrete accepted command increments the counter from 0 to
1. -/
theorem asyncCommand_sequence_witness :
    (asyncCommand "7" EventStreamStatus.CONNECTED 0 [0x73, 0x00, 0x00, 0x00, 0x1f]
        "7" []).1 = 0 + 1 :=
  (asyncCommand_sequence "7" EventStreamStatus.CONNECTED 0
      [0x73, 0x00, 0x00, 0x00, 0x1f] "7" [] (by decide)).2.1 (by decide)

/-- C8: a command issued while the session status is anything other than
`CONNECTED` is dropped: the sequence counter is unchanged, nothing is written
to the transport, and no exception is raised. -/
theorem asyncCommand_disconnected_drops (target : String)
    (status : EventStreamStatus) (h : status ≠ EventStreamStatus.CONNECTED)
    (seq : Nat) (c : List Nat) (sid : String) (pkt : List Nat) :
    asyncCommand target status seq c sid pkt = (seq, CmdOutcome.dropped) := by
  simp [asyncCommand, h]

/-- C8 witness: a concrete command while disconnected is dropped. -/
theorem asyncCommand_disconnected_drops_witness :
    asyncCommand "a" EventStreamStatus.DISCONNECTED 5 [] "b" [] =
      (5, CmdOutcome.dropped) :=
  asyncCommand_disconnected_drops "a" EventStreamStatus.DISCONNECTED (by decide)
    5 [] "b" []

/-- C7: whenever the framer yields a packet, its payload length equals the
length declared in the 5-byte header; and when the stream holds fewer bytes
than the declared length, the framer raises `AssertionError` instead of
yielding a truncated payload. -/
theorem framer_length_exact (stream : List Nat) :
    (∀ ty payload rest,
        processStep stream = Except.ok (StepResult.packet ty payload rest) →
        payload.length = beVal ((stream.take 5).drop 1)) ∧
    (stream.drop 5 ≠ [] →
        (stream.drop 5).length < beVal ((stream.take 5).drop 1) →
        processStep stream = Except.error "AssertionError") := by
  constructor
  · intro ty payload rest h
    unfold processStep at h
    simp only [] at h
    split at h
    · simp at h
    · split at h
      next hc =>
        simp only [Except.ok.injEq, StepResult.packet.injEq] at h
        obtain ⟨-, hp, -⟩ := h
        rw [← hp]
        exact hc
      · simp at h
  · intro hne hlt
    have h1 : ¬ (stream.drop 5).isEmpty = true := by
      simpa [List.isEmpty_iff] using hne
    have h2 : ¬ (((stream.drop 5).take (beVal ((stream.take 5).drop 1))).length
        = beVal ((stream.take 5).drop 1)) := by
      rw [List.length_take]
      omega
    unfold processStep
    simp only []
    rw [if_neg h1, if_neg h2]

/-- C7 witness: a frame declaring a 10-byte payload over a stream holding only
2 further bytes raises, and a complete 2-byte frame has a payload of exactly
the declared length. -/
theorem framer_length_exact_witness :
    processStep [0x43, 0, 0, 0, 10, 1, 2] = Except.error "AssertionError" ∧
    ([9, 9] : List Nat).length = beVal ((([7, 0, 0, 0, 2, 9, 9] : List Nat).take 5).drop 1) :=
  ⟨(framer_length_exact [0x43, 0, 0, 0, 10, 1, 2]).2 (by decide) (by decide),
    (framer_length_exact [7, 0, 0, 0, 2, 9, 9]).1 7 [9, 9] [] rfl⟩

/-- C10: a subscription receives an event exactly when its event-type filter
is absent or contains the event type, and it is not the case that the data is
non-null while a resource-type filter is present; consequently a subscription
with a resource-type filter never receives any event carrying non-null data;
and `emit` invokes precisely the callbacks of the subscriptions satisfying
this condition, in registration order. -/
theorem emit_delivery (sub : Subscription) (etype : EventType) (data : Option Nat) :
    (receivesEvent sub etype data = true ↔
      ((sub.eventFilter = none ∨ ∃ f, sub.eventFilter = some f ∧ etype ∈ f) ∧
        ¬(data ≠ none ∧ sub.resourceFilter ≠ none))) ∧
    (data ≠ none → sub.resourceFilter ≠ none →
        receivesEvent sub etype data = false) ∧
    (∀ subs : List Subscription,
        emit subs etype data =
          (subs.filter (fun s => receivesEvent s etype data)).map
            Subscription.callback) := by
  refine ⟨?_, ?_, ?_⟩
  · rcases sub with ⟨cb, ef, rf⟩
    cases ef <;> cases rf <;> cases data <;>
      simp [receivesEvent]
  · intro hd hr
    rcases sub with ⟨cb, ef, rf⟩
    cases rf
    · exact absurd rfl hr
    · cases data
      · exact absurd rfl hd
      · cases ef <;> simp [receivesEvent]
  · intro subs
    induction subs with
    | nil => rfl
    | cons s rest ih =>
      by_cases g1 : s.eventFilter.isSome ∧ etype ∉ s.eventFilter.getD []
      · have hs : receivesEvent s etype data = false := by simp [receivesEvent, g1]
        simp [emit, g1, List.filter_cons, hs, ih]
      · by_cases g2 : data.isSome ∧ s.resourceFilter.isSome
        · have hs : receivesEvent s etype data = false := by
            simp [receivesEvent, g1, g2]
          simp [emit, g1, g2, List.filter_cons, hs, ih]
        · have hs : receivesEvent s etype data = true := by
            simp [receivesEvent, g1, g2]
          simp [emit, g1, g2, List.filter_cons, hs, ih]

/-- C10 witness: a subscription with a resource filter does not receive an
event carrying data. -/
theorem emit_delivery_witness :
    receivesEvent ⟨7, none, some [ResourceTypes.UNKNOWN]⟩ EventType.CONNECTED
        (some 1) = false :=
  (emit_delivery ⟨7, none, some [ResourceTypes.UNKNOWN]⟩ EventType.CONNECTED
      (some 1)).2.1 (by decide) (by decide)

/-- C1 counterexample: with two connections each ending in a clean EOF, the
trace between the first connect event and the reconnect event contains TWO
`DISCONNECTED` emissions (one from inside the processing loop, one from the
end of the reader iteration), not exactly one, and no backoff sleep separates
them from the `RECONNECTED` that follows. -/
theorem eofEmitsTwoDisconnects :
    eventReader TARGET_DEVICE_ID 1 [Attempt.succeed [], Attempt.succeed []] =
      [TraceItem.ev EventType.CONNECTED, TraceItem.ev EventType.DISCONNECTED,
        TraceItem.ev EventType.DISCONNECTED, TraceItem.ev EventType.RECONNECTED,
        TraceItem.ev EventType.DISCONNECTED, TraceItem.ev EventType.DISCONNECTED] ∧
    ((eventReader TARGET_DEVICE_ID 1 [Attempt.succeed [], Attempt.succeed []]).take 3).count
        (TraceItem.ev EventType.DISCONNECTED) = 2 := by
  have h : eventReader TARGET_DEVICE_ID 1 [Attempt.succeed [], Attempt.succeed []] =
      [TraceItem.ev EventType.CONNECTED, TraceItem.ev EventType.DISCONNECTED,
        TraceItem.ev EventType.DISCONNECTED, TraceItem.ev EventType.RECONNECTED,
        TraceItem.ev EventType.DISCONNECTED, TraceItem.ev EventType.DISCONNECTED] := by
    simp [eventReader, attemptTrace, processRun.eq_def, processStep]
  refine ⟨h, ?_⟩
  rw [h]
  decide

/-- C1 amended: after the processing loop observes end-of-stream, the session
emits exactly two `DISCONNECTED` events and then — immediately, without the
2-second backoff, which only applies to the exception path — exactly one
`RECONNECTED` event on the next successful re-establishment. -/
theorem eofReconnectTrace (target : String) (s1 s2 : List Nat)
    (h1 : processRun target s1 = Except.ok ())
    (h2 : processRun target s2 = Except.ok ()) :
    eventReader target 1 [Attempt.succeed s1, Attempt.succeed s2] =
      [TraceItem.ev EventType.CONNECTED, TraceItem.ev EventType.DISCONNECTED,
        TraceItem.ev EventType.DISCONNECTED, TraceItem.ev EventType.RECONNECTED,
        TraceItem.ev EventType.DISCONNECTED, TraceItem.ev EventType.DISCONNECTED] := by
  simp [eventReader, attemptTrace, h1, h2]

/-- C1 amended witness: two empty streams realize the amended trace. -/
theorem eofReconnectTrace_witness :
    eventReader "t" 1 [Attempt.succeed [], Attempt.succeed []] =
      [TraceItem.ev EventType.CONNECTED, TraceItem.ev EventType.DISCONNECTED,
        TraceItem.ev EventType.DISCONNECTED, TraceItem.ev EventType.RECONNECTED,
        TraceItem.ev EventType.DISCONNECTED, TraceItem.ev EventType.DISCONNECTED] :=
  eofReconnectTrace "t" [] []
    (by simp [processRun.eq_def, processStep])
    (by simp [processRun.eq_def, processStep])

/-- C2 counterexample: when the first connection attempt fails and the second
succeeds, the first successful connection emits `RECONNECTED`, and no
`CONNECTED` event is ever emitted — the reader counts attempts, not
successes. -/
theorem firstSuccessAfterFailureReconnected :
    eventReader TARGET_DEVICE_ID 1 [Attempt.fail, Attempt.succeed []] =
      [TraceItem.sleepBackoff, TraceItem.ev EventType.DISCONNECTED,
        TraceItem.ev EventType.RECONNECTED, TraceItem.ev EventType.DISCONNECTED,
        TraceItem.ev EventType.DISCONNECTED] ∧
    (eventReader TARGET_DEVICE_ID 1 [Attempt.fail, Attempt.succeed []]).count
        (TraceItem.ev EventType.CONNECTED) = 0 := by
  have h : eventReader TARGET_DEVICE_ID 1 [Attempt.fail, Attempt.succeed []] =
      [TraceItem.sleepBackoff, TraceItem.ev EventType.DISCONNECTED,
        TraceItem.ev EventType.RECONNECTED, TraceItem.ev EventType.DISCONNECTED,
        TraceItem.ev EventType.DISCONNECTED] := by
    simp [eventReader, attemptTrace, processRun.eq_def, processStep]
  refine ⟨h, ?_⟩
  rw [h]
  decide

theorem eventReader_replicate_fail (target : String) (s : List Nat) :
    ∀ k n, ((eventReader target n
        (List.replicate k Attempt.fail ++ [Attempt.succeed s])).drop (2 * k)).take 1
      = [TraceItem.ev
          (if n + k = 1 then EventType.CONNECTED else EventType.RECONNECTED)] := by
  intro k
  induction k with
  | zero =>
    intro n
    by_cases hn : n = 1 <;>
      simp [eventReader, attemptTrace, hn]
  | succ k ih =>
    intro n
    rw [List.replicate_succ]
    simp only [List.cons_append, eventReader, attemptTrace]
    rw [show 2 * (k + 1) = 2 * k + 1 + 1 from by ring]
    simp only [List.drop_succ_cons]
    have harith : n + 1 + k = n + (k + 1) := by omega
    simpa [harith] using ih (n + 1)

/-- C2 amended: the connect event emitted on the first successful connection
is `CONNECTED` only when no attempt preceded it; after `k ≥ 1` failed
attempts, the first success emits `RECONNECTED`, because the reader's counter
counts connection attempts, not successes. -/
theorem connectEventByAttemptCount (target : String) (s : List Nat) (k : Nat) :
    ((eventReader target 1
        (List.replicate k Attempt.fail ++ [Attempt.succeed s])).drop (2 * k)).take 1
      = [TraceItem.ev
          (if k = 0 then EventType.CONNECTED else EventType.RECONNECTED)] := by
  have h := eventReader_replicate_fail target s k 1
  rcases k with _ | k
  · simpa using h
  · rw [if_neg (by omega)]
    rw [if_neg (by omega)] at h
    exact h

end ReCync
